import Mathlib

/- Verification development for the catholic_se Home Assistant integration
   (custom_components/catholic_se/sensor.py).  The extraction core - text
   normalisation, section segmentation, lectionary version selection,
   martyrology extraction, URL resolution and the per-date refresh
   coordinators - is shallowly embedded over List Char, with each Python
   regular-expression operation realised as a dedicated scanner that follows
   the leftmost, non-overlapping semantics of the re module for the concrete
   pattern it models. -/

namespace CatholicSE

/-- Python whitespace class used by the patterns (backslash-s) and by
str.strip, restricted to ASCII, which is what the patterns and the source
documents use. -/
def isWS (c : Char) : Bool :=
  c = ' ' || c = '\t' || c = '\n' || c = '\r' || c = Char.ofNat 11 || c = Char.ofNat 12

/-- Double-quote character (written numerically to keep fixtures readable). -/
def quoteChar : Char := Char.ofNat 34

/-- Apostrophe character, the decoding of the &#39; entity. -/
def aposChar : Char := Char.ofNat 39

/-- Lower-casing as performed by re.IGNORECASE on the alphabet actually used
by the patterns: ASCII letters and the Swedish letters of the headers. -/
def lowerChar (c : Char) : Char :=
  if c = 'Ä' then 'ä'
  else if c = 'Å' then 'å'
  else if c = 'Ö' then 'ö'
  else if 65 ≤ c.toNat ∧ c.toNat ≤ 90 then Char.ofNat (c.toNat + 32)
  else c

/-- Case-insensitive character comparison. -/
def eqCI (a b : Char) : Bool := lowerChar a == lowerChar b

/-- Drop a case-insensitive literal from the head of the input, returning the
remainder on success. -/
def dropLitCI : List Char → List Char → Option (List Char)
  | [], s => some s
  | _ :: _, [] => none
  | p :: ps, c :: cs => if eqCI p c then dropLitCI ps cs else none

/-- Drop a case-sensitive literal from the head of the input. -/
def dropLitCS : List Char → List Char → Option (List Char)
  | [], s => some s
  | _ :: _, [] => none
  | p :: ps, c :: cs => if p == c then dropLitCS ps cs else none

/-- Check whether a case-insensitive literal starts here. -/
def startsWithCI (pat s : List Char) : Bool := (dropLitCI pat s).isSome

/-- Check whether a case-sensitive literal starts here. -/
def startsWithCS (pat s : List Char) : Bool := (dropLitCS pat s).isSome

/-- Case-sensitive substring test, the model of the Python `in` operator on
strings. -/
def containsSub (pat : List Char) : List Char → Bool
  | [] => pat.isEmpty
  | c :: cs => startsWithCS pat (c :: cs) || containsSub pat cs

/-- Model of str.strip: remove leading and trailing whitespace. -/
def stripWS (s : List Char) : List Char :=
  ((s.dropWhile isWS).reverse.dropWhile isWS).reverse

/-- Generic engine for re.sub with a pattern that always consumes at least one
character: `try1` reports a match anchored at the head of its argument as the
replacement text paired with the remainder after the match.  Fuel equal to the
input length suffices because every match consumes at least one character. -/
def pySubAux (try1 : List Char → Option (List Char × List Char)) : Nat → List Char → List Char
  | 0, s => s
  | _ + 1, [] => []
  | fuel + 1, c :: cs =>
    match try1 (c :: cs) with
    | some (rep, rest) => rep ++ pySubAux try1 fuel rest
    | none => c :: pySubAux try1 fuel cs

/-- Leftmost non-overlapping substitution, as re.sub and str.replace do it. -/
def pySub (try1 : List Char → Option (List Char × List Char)) (s : List Char) : List Char :=
  pySubAux try1 s.length s

/-- Generic engine for re.finditer: collect the payloads of the leftmost
non-overlapping matches, resuming after each match end. -/
def pyFindAllAux {α : Type} (try1 : List Char → Option (α × List Char)) :
    Nat → List Char → List α
  | 0, _ => []
  | _ + 1, [] => []
  | fuel + 1, c :: cs =>
    match try1 (c :: cs) with
    | some (m, rest) => m :: pyFindAllAux try1 fuel rest
    | none => pyFindAllAux try1 fuel cs

/-- All matches of an anchored matcher, in document order. -/
def pyFindAll {α : Type} (try1 : List Char → Option (α × List Char)) (s : List Char) : List α :=
  pyFindAllAux try1 s.length s

/-- Generic engine for re.search: return the text before the first match
together with the payload of the match.  Every modeled pattern needs at least
one character, so the empty suffix is never a match position. -/
def pySearchSplit {β : Type} (try1 : List Char → Option β) : List Char → Option (List Char × β)
  | [] => none
  | c :: cs =>
    match try1 (c :: cs) with
    | some b => some ([], b)
    | none =>
      match pySearchSplit try1 cs with
      | some (pre, b) => some (c :: pre, b)
      | none => none

/-- Lazy scan for a non-greedy star: the shortest prefix whose end satisfies
`stop`, returned with the remainder starting at the stop position. -/
def lazyUntil (stop : List Char → Bool) : List Char → Option (List Char × List Char)
  | [] => if stop [] then some ([], []) else none
  | c :: cs =>
    if stop (c :: cs) then some ([], c :: cs)
    else
      match lazyUntil stop cs with
      | some (g, r) => some (c :: g, r)
      | none => none

/-- Model of the dollar anchor of the re module without MULTILINE: it matches
at the very end and also just before a final newline. -/
def dollarAt : List Char → Bool
  | [] => true
  | [c] => c == '\n'
  | _ => false

/-- Matcher for the style-block pattern of clean_html.  In the source the
preceding script-block substitution is computed and then discarded (its result
variable is overwritten by this substitution, which reads the original
argument again, sensor.py lines 95-96), so the style pass is the only tag-block
removal that takes effect. -/
def styleRep (s : List Char) : Option (List Char × List Char) :=
  match dropLitCI "<style".data s with
  | none => none
  | some r1 =>
    match r1.dropWhile (fun c => !(c == '>')) with
    | '>' :: r3 =>
      match lazyUntil (fun u => startsWithCI "</style>".data u) r3 with
      | some (_, r4) => some ([], r4.drop 8)
      | none => none
    | _ => none

/-- Matcher for the line-break tag pattern of clean_html. -/
def brRep (s : List Char) : Option (List Char × List Char) :=
  match dropLitCI "<br".data s with
  | none => none
  | some r1 =>
    match r1.dropWhile isWS with
    | '>' :: r2 => some (['\n'], r2)
    | '/' :: '>' :: r2 => some (['\n'], r2)
    | _ => none

/-- Matcher for a fixed case-insensitive literal replaced by a fixed string. -/
def litRep (pat rep : String) (s : List Char) : Option (List Char × List Char) :=
  match dropLitCI pat.data s with
  | some r => some (rep.data, r)
  | none => none

/-- Matcher for the closing-heading pattern of clean_html (levels 1 to 6). -/
def hCloseRep (s : List Char) : Option (List Char × List Char) :=
  match dropLitCI "</h".data s with
  | some (d :: '>' :: r) => if '1' ≤ d ∧ d ≤ '6' then some ("\n\n".data, r) else none
  | _ => none

/-- Matcher for the generic tag-removal pattern of clean_html: an opening
bracket, one or more characters other than the closing bracket, then the
closing bracket. -/
def tagRep (s : List Char) : Option (List Char × List Char) :=
  match s with
  | '<' :: rest =>
    let seg := rest.takeWhile (fun c => !(c == '>'))
    if seg.isEmpty then none
    else
      match rest.drop seg.length with
      | '>' :: r => some ([], r)
      | _ => none
  | _ => none

/-- Matcher for the newline-collapsing pattern of clean_html: a newline whose
following whitespace run contains at least two more newlines; the match
extends to the last newline of that run and is replaced by a double newline. -/
def nlRep (s : List Char) : Option (List Char × List Char) :=
  match s with
  | '\n' :: rest =>
    let run := rest.takeWhile isWS
    if 2 ≤ run.count '\n' then
      let keep := run.length - (run.reverse.takeWhile (fun c => !(c == '\n'))).length
      some ("\n\n".data, rest.drop keep)
    else none
  | _ => none

/-- Matcher for the horizontal-whitespace collapsing pattern of clean_html. -/
def spRep (s : List Char) : Option (List Char × List Char) :=
  match s with
  | c :: _ =>
    if c = ' ' ∨ c = '\t' then
      let run := s.takeWhile (fun d => d == ' ' || d == '\t')
      some ([' '], s.drop run.length)
    else none
  | [] => none

/-- Matcher for a case-sensitive str.replace pass. -/
def replRep (pat rep : List Char) (s : List Char) : Option (List Char × List Char) :=
  match dropLitCS pat s with
  | some r => some (rep, r)
  | none => none

/-- Shallow embedding of clean_html (sensor.py lines 90-120): style-block
removal (the script pass is discarded by the source itself), break and
closing-tag conversions, generic tag removal, whitespace collapsing, the fixed
entity allow-list, and a final strip. -/
def cleanHtmlL (s : List Char) : List Char :=
  if s.isEmpty then []
  else
    let t := pySub styleRep s
    let t := pySub brRep t
    let t := pySub (litRep "</p>" "\n\n") t
    let t := pySub (litRep "</div>" "\n") t
    let t := pySub hCloseRep t
    let t := pySub tagRep t
    let t := pySub nlRep t
    let t := pySub spRep t
    let t := pySub (replRep "&nbsp;".data [' ']) t
    let t := pySub (replRep "&amp;".data ['&']) t
    let t := pySub (replRep "&lt;".data ['<']) t
    let t := pySub (replRep "&gt;".data ['>']) t
    let t := pySub (replRep "&quot;".data [quoteChar]) t
    let t := pySub (replRep "&#39;".data [aposChar]) t
    let t := pySub (replRep "&auml;".data ['ä']) t
    let t := pySub (replRep "&aring;".data ['å']) t
    let t := pySub (replRep "&ouml;".data ['ö']) t
    let t := pySub (replRep "&Auml;".data ['Ä']) t
    let t := pySub (replRep "&Aring;".data ['Å']) t
    let t := pySub (replRep "&Ouml;".data ['Ö']) t
    stripWS t

/-- String-level wrapper of the text normaliser. -/
def clean_html (s : String) : String := ⟨cleanHtmlL s.data⟩

/-- Embedding of the ordinal helper (sensor.py lines 34-39). -/
def ordinal (n : Nat) : String :=
  if 11 ≤ n ∧ n ≤ 13 then toString n ++ "th"
  else
    toString n ++
      (match n % 10 with
       | 1 => "st"
       | 2 => "nd"
       | 3 => "rd"
       | _ => "th")

/-- Upper-casing for the first letter of str.capitalize, on the alphabet the
month names use. -/
def upperChar (c : Char) : Char :=
  if c = 'ä' then 'Ä'
  else if c = 'å' then 'Å'
  else if c = 'ö' then 'Ö'
  else if 97 ≤ c.toNat ∧ c.toNat ≤ 122 then Char.ofNat (c.toNat - 32)
  else c

/-- Model of str.capitalize: first character upper-cased, the rest lowered. -/
def capitalizeS (s : String) : String :=
  match s.data with
  | [] => ""
  | c :: cs => ⟨upperChar c :: cs.map lowerChar⟩

/-- Consume one or more whitespace characters (the backslash-s-plus pattern);
maximal munch is faithful here because every following pattern token starts
with a non-whitespace character. -/
def wsPlus : List Char → Option (List Char)
  | c :: cs => if isWS c then some (cs.dropWhile isWS) else none
  | [] => none

/-- Word characters of the backslash-w class, restricted to ASCII as used by
the boilerplate ordinal words of the martyrology pages. -/
def isWordChar (c : Char) : Bool :=
  (48 ≤ c.toNat && c.toNat ≤ 57) || (65 ≤ c.toNat && c.toNat ≤ 90) ||
  (97 ≤ c.toNat && c.toNat ≤ 122) || c == '_'

/-- Matcher for the day heading of parse_martyrology_for_day, anchored at the
head: an h2 open tag, optional whitespace, the capitalised month literal, at
least one whitespace character, the ordinal day literal, optional whitespace,
the closing h2 tag, then the lazy content group up to the next h2 heading, a
horizontal rule, or the dollar anchor.  The month and ordinal are interpolated
into the pattern as literals by the source, which is what this models (real
month names contain no regex metacharacters). -/
def martHeadAt (monthCap dayOrd : List Char) (s : List Char) : Option (List Char) :=
  match dropLitCI "<h2>".data s with
  | none => none
  | some r1 =>
    match dropLitCI monthCap (r1.dropWhile isWS) with
    | none => none
    | some r2 =>
      match wsPlus r2 with
      | none => none
      | some r3 =>
        match dropLitCI dayOrd r3 with
        | none => none
        | some r4 =>
          match dropLitCI "</h2>".data (r4.dropWhile isWS) with
          | none => none
          | some r5 =>
            match lazyUntil
                (fun u => startsWithCI "<h2>".data u || startsWithCI "<hr".data u || dollarAt u)
                r5 with
            | some (g, _) => some g
            | none => none

/-- Matcher for the boilerplate sentence removed by parse_martyrology_for_day:
the literal opening, an optional comma, and the whitespace-separated words of
the sentence ending in the capitalised month, followed by any trailing
whitespace.  Used with the leftmost non-overlapping substitution engine,
because the source removes it with re.sub, wherever it occurs. -/
def boilerRep (monthCap : List Char) (s : List Char) : Option (List Char × List Char) :=
  match dropLitCI "This Day".data s with
  | none => none
  | some r1 =>
    let r1b := match r1 with
      | ',' :: rest => rest
      | rest => rest
    match wsPlus r1b with
    | none => none
    | some r2 =>
      match dropLitCI "the".data r2 with
      | none => none
      | some r2b =>
        match wsPlus r2b with
        | none => none
        | some r3 =>
        let w := r3.takeWhile isWordChar
        if w.isEmpty then none
        else
          match wsPlus (r3.drop w.length) with
          | none => none
          | some r4 =>
            match dropLitCI "Day".data r4 with
            | none => none
            | some r5 =>
              match wsPlus r5 with
              | none => none
              | some r6 =>
                match dropLitCI "of".data r6 with
                | none => none
                | some r7 =>
                  match wsPlus r7 with
                  | none => none
                  | some r8 =>
                    match dropLitCI monthCap r8 with
                    | none => none
                    | some r9 => some ([], r9.dropWhile isWS)

/-- Shallow embedding of parse_martyrology_for_day (sensor.py lines 123-146):
search for the day heading, normalise the captured content, remove the
boilerplate sentence with re.sub, strip; an absent heading yields the empty
string. -/
def parse_martyrology_for_day (html : String) (day : Nat) (month_name : String) : String :=
  let monthCap := (capitalizeS month_name).data
  let dayOrd := (ordinal day).data
  match pySearchSplit (martHeadAt monthCap dayOrd) html.data with
  | some (_, content) =>
    let text := cleanHtmlL content
    let text := pySub (boilerRep monthCap) text
    ⟨stripWS text⟩
  | none => ""

/-- Calendar date, the argument type of the URL builder and the refresh
coordinators. -/
structure Date where
  year : Nat
  month : Nat
  day : Nat
deriving DecidableEq, Repr

/-- Gregorian leap-year rule. -/
def isLeapYear (y : Nat) : Bool :=
  y % 4 == 0 && (y % 100 != 0 || y % 400 == 0)

/-- Days in the years strictly before year y of the proleptic Gregorian
calendar. -/
def daysBeforeYear (y : Nat) : Nat :=
  (y - 1) * 365 + (y - 1) / 4 - (y - 1) / 100 + (y - 1) / 400

/-- Cumulative day counts before each month in a non-leap year. -/
def daysBeforeMonthList : List Nat :=
  [0, 31, 59, 90, 120, 151, 181, 212, 243, 273, 304, 334]

/-- Proleptic Gregorian ordinal of a date, with 0001-01-01 as day 1, as used
by the datetime module. -/
def toOrdinal (d : Date) : Nat :=
  daysBeforeYear d.year + daysBeforeMonthList.getD (d.month - 1) 0 +
    (if 2 < d.month ∧ isLeapYear d.year then 1 else 0) + d.day

/-- Model of date.weekday: Monday is 0. -/
def pyWeekday (d : Date) : Nat := (toOrdinal d + 6) % 7

/-- Ordinal of the Monday starting ISO week 1 of a year, following the
datetime module. -/
def isoWeek1Monday (y : Nat) : Int :=
  let firstday : Int := (toOrdinal ⟨y, 1, 1⟩ : Nat)
  let firstweekday : Int := (firstday + 6) % 7
  let wk1 := firstday - firstweekday
  if 3 < firstweekday then wk1 + 7 else wk1

/-- ISO week number of a date, the second component of date.isocalendar,
following the datetime module (Euclidean division matches the floor division
of Python for the positive divisor 7). -/
def isoWeekNumber (d : Date) : Int :=
  let today : Int := (toOrdinal d : Nat)
  let week := (today - isoWeek1Monday d.year).ediv 7
  if week < 0 then (today - isoWeek1Monday (d.year - 1)).ediv 7 + 1
  else if 52 ≤ week ∧ isoWeek1Monday (d.year + 1) ≤ today then 1
  else week + 1

/-- Unaccented Swedish weekday names of the source, Monday first. -/
def SWEDISH_WEEKDAYS : List String :=
  ["mandag", "tisdag", "onsdag", "torsdag", "fredag", "lordag", "sondag"]

/-- Swedish month names of the source. -/
def SWEDISH_MONTHS : List String :=
  ["januari", "februari", "mars", "april", "maj", "juni",
   "juli", "augusti", "september", "oktober", "november", "december"]

/-- English month names of the source, used for the martyrology URLs. -/
def ENGLISH_MONTHS : List String :=
  ["january", "february", "march", "april", "may", "june",
   "july", "august", "september", "october", "november", "december"]

/-- Base URL of the readings site. -/
def KATOLSKA_BASE_URL : String :=
  "https://www.katolskakyrkan.se/forsamlingsliv/ordo-och-veckans-lasningar"

/-- Embedding of build_katolska_url (sensor.py lines 75-87). -/
def build_katolska_url (d : Date) : String :=
  let week_number := isoWeekNumber d
  let weekday_name := SWEDISH_WEEKDAYS.getD (pyWeekday d) ""
  let month_name := SWEDISH_MONTHS.getD (d.month - 1) ""
  KATOLSKA_BASE_URL ++ "/vecka-" ++ toString week_number ++ "/" ++ weekday_name ++
    "-den-" ++ toString d.day ++ "-" ++ month_name

/-- Check whether some suffix of the candidate href value starts with the day
slug (case-insensitively) and is followed by at least one further character,
which is what the quantifiers around the slug in the navigation pattern
require inside one quoted attribute value. -/
def hasSlugWithTail (slug : List Char) : List Char → Bool
  | [] => false
  | c :: cs =>
    (match dropLitCI slug (c :: cs) with
     | some (_ :: _) => true
     | _ => false) || hasSlugWithTail slug cs

/-- Matcher for the day-link pattern of _find_day_url_from_week_page, anchored
at the head: the href attribute opener, then a quoted value that contains the
weekday-den-day slug followed by any month spelling; the captured group is the
whole attribute value. -/
def hrefAt (slug : List Char) (s : List Char) : Option (List Char) :=
  match dropLitCI "href=".data s with
  | none => none
  | some (q :: r2) =>
    if q == quoteChar then
      let value := r2.takeWhile (fun c => !(c == quoteChar))
      match r2.drop value.length with
      | q2 :: _ =>
        if q2 == quoteChar && hasSlugWithTail slug value then some value else none
      | [] => none
    else none
  | some [] => none

/-- Pure core of ReadingsCoordinator._find_day_url_from_week_page (sensor.py
lines 433-471) applied to an already fetched week page: search for a day link
and absolutise a site-relative path. -/
def find_day_url_in_week_html (navHtml : String) (d : Date) : Option String :=
  let weekday_name := SWEDISH_WEEKDAYS.getD (pyWeekday d) ""
  let slug := ("/" ++ weekday_name ++ "-den-" ++ toString d.day ++ "-").data
  match pySearchSplit (hrefAt slug) navHtml.data with
  | some (_, value) =>
    if value.head? = some '/' then
      some ("https://www.katolskakyrkan.se" ++ (⟨value⟩ : String))
    else some (⟨value⟩ : String)
  | none => none

/-- URL choice of ReadingsCoordinator.async_refresh (sensor.py lines 480-486):
the link discovered on the week navigation page when there is one, the
canonical slug otherwise. -/
def resolve_readings_url (navFound : Option String) (d : Date) : String :=
  match navFound with
  | some u => u
  | none => build_katolska_url d

/-- Token of a header alternative: a case-insensitive literal or a mandatory
whitespace run (the backslash-s-plus separators inside some header names). -/
inductive HTok where
  | lit : String → HTok
  | wsp : HTok

/-- Consume a header alternative, token by token.  Maximal munch for the
whitespace token is faithful because every following literal starts with a
non-whitespace character. -/
def dropToks : List HTok → List Char → Option (List Char)
  | [], s => some s
  | HTok.lit w :: ts, s =>
    match dropLitCI w.data s with
    | some r => dropToks ts r
    | none => none
  | HTok.wsp :: ts, s =>
    match wsPlus s with
    | some r => dropToks ts r
    | none => none

/-- Try the header alternatives in pattern order; each must be followed by the
closing strong tag, and a failing continuation falls through to the next
alternative as the re module backtracks through an alternation. -/
def tryAlts (alts : List (List HTok)) (s : List Char) : Option (List Char) :=
  match alts with
  | [] => none
  | a :: rest =>
    match dropToks a s with
    | some r3 =>
      match dropLitCI "</strong>".data r3 with
      | some r4 => some r4
      | none => tryAlts rest s
    | none => tryAlts rest s

/-- Matcher for the shared section-header shape: a paragraph opener, optional
whitespace, a strong tag holding one of the given header alternatives, and the
closing strong tag; returns the remainder after the closing tag. -/
def headerTagAt (alts : List (List HTok)) (s : List Char) : Option (List Char) :=
  match dropLitCI "<p>".data s with
  | none => none
  | some r1 =>
    match dropLitCI "<strong>".data (r1.dropWhile isWS) with
    | none => none
    | some r2 => tryAlts alts r2

/-- Check for the lectionary marker paragraph opener used inside the
lookaheads: a paragraph opener, optional whitespace, an em tag and the marker
literal. -/
def markerEmAt (s : List Char) : Bool :=
  match dropLitCI "<p>".data s with
  | none => false
  | some r1 =>
    match dropLitCI "<em>".data (r1.dropWhile isWS) with
    | none => false
    | some r2 => startsWithCI "Ur Lektionarium".data r2

/-- Matcher for the reference group of a section header: optional whitespace,
then one or more characters other than an opening bracket, then the closing
paragraph tag.  The group is forced to run to the first opening bracket; when
the closing tag follows the header immediately after whitespace, the greedy
whitespace quantifier gives back exactly one character to the mandatory group,
as the re module backtracking does. -/
def refGroupAt (t : List Char) : Option (List Char × List Char) :=
  let w := t.takeWhile isWS
  let r := t.drop w.length
  let seg := r.takeWhile (fun c => !(c == '<'))
  if seg.isEmpty then
    match w.reverse with
    | [] => none
    | lastW :: _ =>
      match dropLitCI "</p>".data r with
      | some rest => some ([lastW], rest)
      | none => none
  else
    match dropLitCI "</p>".data (r.drop seg.length) with
    | some rest => some (seg, rest)
    | none => none

/-- Matcher for one full reading section anchored at the head: header,
reference group, closing paragraph tag, then the lazy body group up to the
stop lookahead.  The payload is the pair of the reference and body groups; the
scan resumes at the body end because the lookahead consumes nothing. -/
def secAt (hdrAlts : List (List HTok)) (stop : List Char → Bool) (s : List Char) :
    Option ((List Char × List Char) × List Char) :=
  match headerTagAt hdrAlts s with
  | none => none
  | some t =>
    match refGroupAt t with
    | none => none
    | some (ref, afterP) =>
      match lazyUntil stop afterP with
      | some (bodyG, rest) => some ((ref, bodyG), rest)
      | none => none

/-- Stop lookahead of the first-reading pattern (Sunday form). -/
def frStop (s : List Char) : Bool :=
  (headerTagAt [[HTok.lit "Responsoriepsalm"], [HTok.lit "Halleluja"], [HTok.lit "Evangelium"],
      [HTok.lit "Andra läsningen"], [HTok.lit "Första läsningen"]] s).isSome
    || markerEmAt s || dollarAt s

/-- Stop lookahead of the weekday reading pattern. -/
def rdStop (s : List Char) : Bool :=
  (headerTagAt [[HTok.lit "Responsoriepsalm"], [HTok.lit "Halleluja"], [HTok.lit "Evangelium"],
      [HTok.lit "Läsning"]] s).isSome
    || markerEmAt s || dollarAt s

/-- Stop lookahead of the second-reading pattern. -/
def secStop (s : List Char) : Bool :=
  (headerTagAt [[HTok.lit "Halleluja"], [HTok.lit "Evangelium"],
      [HTok.lit "Andra", HTok.wsp, HTok.lit "läsningen"],
      [HTok.lit "2:a", HTok.wsp, HTok.lit "läsningen"]] s).isSome
    || markerEmAt s || dollarAt s

/-- Stop lookahead of the gospel pattern: the alternate-form marker, another
gospel header, the article-ending container tags, or the dollar anchor. -/
def gspStop (s : List Char) : Bool :=
  startsWithCI "<p>eller".data s
    || (headerTagAt [[HTok.lit "Evangelium"]] s).isSome
    || startsWithCI "<div".data s || startsWithCI "<footer".data s
    || startsWithCI "<aside".data s || dollarAt s

/-- Stop header of the psalm section (searched, not a lookahead). -/
def psalmEndStop (s : List Char) : Bool :=
  (headerTagAt [[HTok.lit "Halleluja"], [HTok.lit "Lovsång"],
      [HTok.lit "Vers före evangeliet"], [HTok.lit "Evangelium"], [HTok.lit "Läsning"]] s).isSome

/-- Matcher for the psalm header: same header-and-reference shape, but with no
body group; the payload keeps the text after the header end, the slice the
source takes the psalm section from. -/
def psalmHdrAt (s : List Char) : Option ((List Char × List Char) × List Char) :=
  match headerTagAt [[HTok.lit "Responsoriepsalm"]] s with
  | none => none
  | some t =>
    match refGroupAt t with
    | none => none
    | some (ref, afterP) => some ((ref, afterP), afterP)

/-- Matcher for the 2022 lectionary marker paragraph inside a psalm section:
the em paragraph whose text between the marker literal and the first opening
bracket contains 2022; returns the remainder after the closing paragraph
tag. -/
def marker2022At (s : List Char) : Option (List Char) :=
  match dropLitCI "<p>".data s with
  | none => none
  | some r1 =>
    match dropLitCI "<em>".data (r1.dropWhile isWS) with
    | none => none
    | some r2 =>
      match dropLitCI "Ur Lektionarium".data r2 with
      | none => none
      | some r3 =>
        let seg := r3.takeWhile (fun c => !(c == '<'))
        if containsSub "2022".data seg then
          match dropLitCI "</em>".data (r3.drop seg.length) with
          | none => none
          | some r4 =>
            match dropLitCI "</p>".data (r4.dropWhile isWS) with
            | none => none
            | some r5 => some r5
        else none

/-- Lazy scan of the response group: one-or-more characters other than a
newline (the dot of the pattern is used without DOTALL) up to the closing
paragraph tag; the check precedes consumption so the group is as short as
possible. -/
def respScanGroup : List Char → Option (List Char)
  | [] => none
  | c :: cs =>
    if startsWithCI "</p>".data (c :: cs) then some []
    else if c == '\n' then none
    else
      match respScanGroup cs with
      | some g => some (c :: g)
      | none => none

/-- Matcher for the response line of the psalm: a paragraph opener, optional
whitespace, the R-dot marker, optional whitespace, then the lazy non-newline
group up to the closing paragraph tag.  When the closing tag follows the
whitespace immediately, the greedy whitespace gives back one non-newline
character to the mandatory group. -/
def respAt (s : List Char) : Option (List Char) :=
  match dropLitCI "<p>".data s with
  | none => none
  | some r1 =>
    match dropLitCI "R.".data (r1.dropWhile isWS) with
    | none => none
    | some r2 =>
      let w := r2.takeWhile isWS
      let r := r2.drop w.length
      match r with
      | c :: cs =>
        match (respScanGroup cs).map (fun g => c :: g) with
        | some g => some g
        | none =>
          if startsWithCI "</p>".data r then
            match w.reverse with
            | lastW :: _ => if lastW == '\n' then none else some [lastW]
            | [] => none
          else none
      | [] => none

/-- Matcher for a tag with optional attributes and a lazy content group up to
its closing tag, the shape of the title and main-content searches. -/
def lazyTagContentAt (tagOpen tagClose : String) (s : List Char) : Option (List Char) :=
  match dropLitCI tagOpen.data s with
  | none => none
  | some r1 =>
    let attrs := r1.takeWhile (fun c => !(c == '>'))
    match r1.drop attrs.length with
    | '>' :: r2 =>
      match lazyUntil (fun u => startsWithCI tagClose.data u) r2 with
      | some (g, _) => some g
      | none => none
    | _ => none

/-- Content the section patterns are matched against: the lazy group of the
first main element when one exists, the whole document otherwise (sensor.py
lines 174-177). -/
def readingsBody (html : String) : List Char :=
  match pySearchSplit (lazyTagContentAt "<main" "</main>") html.data with
  | some (_, g) => g
  | none => html.data

/-- Title extraction from the first h1 of the whole document, before the
main-content narrowing (sensor.py lines 169-172). -/
def titleOf (html : String) : String :=
  match pySearchSplit (lazyTagContentAt "<h1" "</h1>") html.data with
  | some (_, g) => ⟨cleanHtmlL g⟩
  | none => ""

/-- Lectionary-version marker check, a case-sensitive substring test on the
content being parsed (sensor.py line 186; recomputed unchanged for the gospel
at line 289). -/
def hasLectionaryVersions (body : List Char) : Bool :=
  containsSub "Ur Lektionarium".data body

/-- All matches of the Sunday first-reading pattern. -/
def firstMatches (body : List Char) : List (List Char × List Char) :=
  pyFindAll (secAt [[HTok.lit "Första läsningen"]] frStop) body

/-- All matches of the weekday reading pattern. -/
def readingMatches (body : List Char) : List (List Char × List Char) :=
  pyFindAll (secAt [[HTok.lit "Läsning"]] rdStop) body

/-- All matches of the second-reading pattern. -/
def secondMatches (body : List Char) : List (List Char × List Char) :=
  pyFindAll (secAt [[HTok.lit "Andra", HTok.wsp, HTok.lit "läsningen"],
    [HTok.lit "2:a", HTok.wsp, HTok.lit "läsningen"]] secStop) body

/-- All matches of the gospel pattern. -/
def gospelMatches (body : List Char) : List (List Char × List Char) :=
  pyFindAll (secAt [[HTok.lit "Evangelium"]] gspStop) body

/-- All matches of the psalm header pattern. -/
def psalmMatches (body : List Char) : List (List Char × List Char) :=
  pyFindAll psalmHdrAt body

/-- Version selection shared by every section (sensor.py lines 199-202,
225-228, 271-274, 291-296): the last match when the marker is present and the
pattern matched more than once, the first match otherwise. -/
def pick {α : Type} (hasVersions : Bool) (m : α) (ms : List α) : α :=
  if hasVersions ∧ 1 < (m :: ms).length then ms.getLastD m else m

/-- One Scripture passage of the result record. -/
structure Reading where
  reference : String
  text : String
deriving DecidableEq, Repr

/-- Psalm passage with the isolated response line. -/
structure PsalmReading where
  reference : String
  text : String
  response : String
deriving DecidableEq, Repr

/-- Result record of parse_katolska_readings. -/
structure Readings where
  first_reading : Reading
  responsorial_psalm : PsalmReading
  second_reading : Reading
  gospel : Reading
  title : String
deriving DecidableEq, Repr

/-- Build a Reading from the two captured groups of a section match, each
normalised and stripped as the source does. -/
def mkReading (m : List Char × List Char) : Reading :=
  { reference := ⟨stripWS (cleanHtmlL m.1)⟩, text := ⟨stripWS (cleanHtmlL m.2)⟩ }

/-- Section result from a match list: empty strings when the pattern found
nothing, the version-selected match otherwise. -/
def sectionReading (hasVersions : Bool) (ms : List (List Char × List Char)) : Reading :=
  match ms with
  | [] => { reference := "", text := "" }
  | m :: rest => mkReading (pick hasVersions m rest)

/-- Psalm fields from the selected header match (sensor.py lines 230-262):
reference from the header group; section sliced from the header end to the
first psalm stop header; content narrowed past an inner 2022 marker when the
section shows both marker substrings; response from the first R-dot paragraph
of the content; text is the normalised content. -/
def psalmFromSel (sel : List Char × List Char) : PsalmReading :=
  let reference : String := ⟨stripWS (cleanHtmlL sel.1)⟩
  let afterHdr := sel.2
  let sect :=
    match pySearchSplit (fun u => if psalmEndStop u then some () else none) afterHdr with
    | some (pre, _) => pre
    | none => afterHdr
  let content :=
    if containsSub "Ur Lektionarium".data sect && containsSub "2022".data sect then
      match pySearchSplit marker2022At sect with
      | some (_, rest) => rest
      | none => sect
    else sect
  let response : String :=
    match pySearchSplit respAt content with
    | some (_, g) => ⟨stripWS (cleanHtmlL g)⟩
    | none => ""
  { reference := reference, text := ⟨stripWS (cleanHtmlL content)⟩, response := response }

/-- Psalm section result from the header match list. -/
def psalmSection (hasVersions : Bool) (ms : List (List Char × List Char)) : PsalmReading :=
  match ms with
  | [] => { reference := "", text := "", response := "" }
  | m :: rest => psalmFromSel (pick hasVersions m rest)

/-- Section assembly of parse_katolska_readings on the narrowed content: the
Sunday first-reading pattern takes priority and the weekday pattern is used
only when it found nothing (sensor.py lines 196-216). -/
def parseSections (title : String) (body : List Char) : Readings :=
  let hv := hasLectionaryVersions body
  { title := title
    first_reading :=
      if (firstMatches body).isEmpty then sectionReading hv (readingMatches body)
      else sectionReading hv (firstMatches body)
    responsorial_psalm := psalmSection hv (psalmMatches body)
    second_reading := sectionReading hv (secondMatches body)
    gospel := sectionReading hv (gospelMatches body) }

/-- Shallow embedding of parse_katolska_readings (sensor.py lines 149-303). -/
def parse_katolska_readings (html : String) : Readings :=
  parseSections (titleOf html) (readingsBody html)

/-- Outcome of one bounded HTTP fetch, the environment input of a refresh
step: a completed response with its status code and body, a timeout, or any
other exception with its message.  A refresh function is total in this input,
which embeds the try-except of the source: no exception crosses the refresh
boundary. -/
inductive FetchOutcome where
  | ok : Nat → String → FetchOutcome
  | timeout : FetchOutcome
  | exc : String → FetchOutcome
deriving DecidableEq, Repr

/-- Failure predicate on an outcome: anything except a 200 response. -/
def FetchOutcome.failed : FetchOutcome → Bool
  | FetchOutcome.ok st _ => st != 200
  | _ => true

/-- Zero-padding of isoformat components. -/
def pad2 (n : Nat) : String := if n < 10 then "0" ++ toString n else toString n

/-- Model of date.isoformat for the years the integration runs in. -/
def isoformat (d : Date) : String :=
  toString d.year ++ "-" ++ pad2 d.month ++ "-" ++ pad2 d.day

/-- Stored payload of a successful readings refresh: the parsed record plus
the url and date keys the source adds to it (sensor.py lines 494-496). -/
structure StoredReadings where
  record : Readings
  url : String
  dateIso : String
deriving DecidableEq, Repr

/-- State of ReadingsCoordinator (sensor.py lines 425-431). -/
structure RState where
  data : Option StoredReadings
  last_update : Option Date
  error : Option String
  url : Option String
deriving DecidableEq, Repr

/-- Embedding of ReadingsCoordinator.async_refresh (sensor.py lines 473-512)
as a state transition on the coordinator state, parameterised by the result of
the week-page discovery and the outcome of the content fetch.  The boolean
result reports whether the content fetch was reached. -/
def readingsRefresh (s : RState) (today : Date) (nav : Option String) (outcome : FetchOutcome) :
    RState × Bool :=
  if s.data.isSome ∧ s.last_update = some today then (s, false)
  else
    let url := resolve_readings_url nav today
    let s1 : RState := { s with url := some url }
    match outcome with
    | FetchOutcome.ok st body =>
      if st = 200 then
        ({ s1 with
            data := some { record := parse_katolska_readings body, url := url,
                           dateIso := isoformat today },
            last_update := some today, error := none }, true)
      else if st = 404 then
        ({ s1 with
            error := some "Sidan hittades inte (404) - läsningar kanske inte är publicerade än" },
          true)
      else ({ s1 with error := some ("HTTP " ++ toString st) }, true)
    | FetchOutcome.timeout => ({ s1 with error := some "Timeout vid hämtning" }, true)
    | FetchOutcome.exc m => ({ s1 with error := some m }, true)

/-- State of MartyrologyCoordinator (sensor.py lines 538-544); the data slot
is initialised and never written by the source, and is kept to show it stays
untouched. -/
structure MState where
  data : Option String
  last_update : Option Date
  text : String
  error : Option String
deriving DecidableEq, Repr

/-- Embedding of MartyrologyCoordinator.async_refresh (sensor.py lines
546-575).  The guard requires a NON-EMPTY stored text: a completed refresh
whose parsed text is empty is refetched on the next call. -/
def martyrologyRefresh (s : MState) (today : Date) (outcome : FetchOutcome) : MState × Bool :=
  if s.text ≠ "" ∧ s.last_update = some today then (s, false)
  else
    match outcome with
    | FetchOutcome.ok st body =>
      if st = 200 then
        ({ s with
            text := parse_martyrology_for_day body today.day
              (ENGLISH_MONTHS.getD (today.month - 1) ""),
            last_update := some today, error := none }, true)
      else ({ s with error := some ("HTTP " ++ toString st) }, true)
    | FetchOutcome.timeout => ({ s with error := some "Timeout" }, true)
    | FetchOutcome.exc m => ({ s with error := some m }, true)

/-- State of LiturgyCoordinator (sensor.py lines 337-341); the parsed JSON
payload is opaque to the claims and kept as the response body. -/
structure LState where
  data : Option String
  last_update : Option Date
deriving DecidableEq, Repr

/-- Embedding of LiturgyCoordinator.async_refresh (sensor.py lines 343-365):
no error attribute exists on this coordinator, and failures leave the state
unchanged. -/
def liturgyRefresh (s : LState) (today : Date) (outcome : FetchOutcome) : LState × Bool :=
  if s.data.isSome ∧ s.last_update = some today then (s, false)
  else
    match outcome with
    | FetchOutcome.ok st body =>
      if st = 200 then ({ data := some body, last_update := some today }, true)
      else (s, true)
    | _ => (s, true)

/-- Second definition, following the words of the specification rather than
the source, for the martyrology boilerplate step: the boilerplate sentence is
stripped only when present at the start of the normalised content.  It exists
to be compared against the embedded source behaviour, which removes the
sentence wherever it occurs. -/
def martyrologySpecClaim (html : String) (day : Nat) (month_name : String) : String :=
  let monthCap := (capitalizeS month_name).data
  let dayOrd := (ordinal day).data
  match pySearchSplit (martHeadAt monthCap dayOrd) html.data with
  | some (_, content) =>
    let text := cleanHtmlL content
    let text :=
      match boilerRep monthCap text with
      | some (_, rest) => rest
      | none => text
    ⟨stripWS text⟩
  | none => ""

/-- Effective first-reading match list: the Sunday pattern when it matched at
all, the weekday pattern otherwise (the priority of sensor.py lines
196-216). -/
def activeFirstMatches (body : List Char) : List (List Char × List Char) :=
  if (firstMatches body).isEmpty then readingMatches body else firstMatches body

/-- Fixture: a weekday page carrying the 1994 and 2022 editions of all four
sections, in the shape described by the source comments. -/
def C1doc : String :=
  "<p><em>Ur Lektionarium 1994</em></p><p><strong>Läsning</strong> L1</p><p>la</p><p><strong>Responsoriepsalm</strong> P1</p><p>R. r1</p><p><strong>Andra läsningen</strong> A1</p><p>aa</p><p><strong>Evangelium</strong> E1</p><p>ea</p><p><em>Ur Lektionarium 2022</em></p><p><strong>Läsning</strong> L2</p><p>lb</p><p><strong>Responsoriepsalm</strong> P2</p><p>R. r2</p><p><strong>Andra läsningen</strong> A2</p><p>ab</p><p><strong>Evangelium</strong> E2</p><p>eb</p>"

/-- Fixture: a single-edition page without the lectionary marker. -/
def C1docSingle : String := "<p><strong>Evangelium</strong> E</p><p>t</p>"

/-- Fixture: a document whose lectionary marker lies outside the main element
while the gospel pattern matches twice inside it. -/
def C1cxDoc : String :=
  "<main><p><strong>Evangelium</strong> G1</p><p>a</p><p><strong>Evangelium</strong> G2</p><p>b</p></main><p>Ur Lektionarium 2022</p>"

/-- Fixture: a page showing both the Sunday and the weekday first-reading
headers. -/
def C3doc : String :=
  "<p><strong>Första läsningen</strong> A 1</p><p>aa</p><p><strong>Läsning</strong> B 2</p><p>bb</p>"

/-- Fixture: a martyrology day whose boilerplate sentence occurs in the middle
of the content, not at its start. -/
def C4doc : String :=
  "<h2>February 13th</h2><p>Saint A. This Day, the 13th Day of February is good.</p><h2>February 14th</h2><p>Other</p>"

/-- Fixture: a martyrology entry directly after the heading, closed by a
horizontal rule. -/
def C4docPlain : String := "<h2>February 13th</h2><p>Saints.</p><hr>x"

/-- Fixture: a weekday page with no second-reading header. -/
def C5doc : String := "<p><strong>Läsning</strong> Rom 1:1-7</p><p>body</p>"

/-- Fixture: a week navigation page whose only day link spells the month
wrongly. -/
def C6navDoc : String :=
  "<a href=" ++ (⟨[quoteChar]⟩ : String) ++
    "/forsamlingsliv/ordo-och-veckans-lasningar/vecka-7/fredag-den-13-feburari" ++
    (⟨[quoteChar]⟩ : String) ++ ">fredag</a>"

/-- Fixture: a document whose only gospel header sits outside the main
element. -/
def C10doc : String :=
  "<h1>Rubrik</h1><main><p>inget</p></main><p><strong>Evangelium</strong> Mark 1:1</p><p>utanfor</p>"

/-- Helper: the default argument of getLastD is irrelevant on a list whose
getLast? is known. -/
theorem getLastD_of_getLastQ {α : Type} : ∀ (ms : List α) (m g : α),
    (m :: ms).getLast? = some g → ms.getLastD m = g
  | [], m, g, h => by
      rw [List.getLast?_singleton] at h
      injection h with h
  | a :: t, m, g, h => by
      have h2 : (a :: t).getLast? = some g := by
        rw [List.getLast?_cons_cons] at h
        exact h
      have ih := getLastD_of_getLastQ t a g h2
      rw [List.getLastD_cons]
      exact ih

/-- Helper: version selection takes the last match when the marker is present
and there is more than one match. -/
theorem pick_last {α : Type} (m : α) (ms : List α) (h : ms ≠ []) :
    pick true m ms = ms.getLastD m := by
  unfold pick
  rw [if_pos]
  refine ⟨rfl, ?_⟩
  cases ms with
  | nil => exact absurd rfl h
  | cons a t => simp only [List.length_cons]; omega

/-- Helper: version selection takes the first match when the marker is absent
or the match is unique. -/
theorem pick_first {α : Type} (hv : Bool) (m : α) (ms : List α) (h : hv = false ∨ ms = []) :
    pick hv m ms = m := by
  unfold pick
  rw [if_neg]
  rintro ⟨h1, h2⟩
  rcases h with h | h
  · rw [h] at h1; cases h1
  · subst h; simp at h2

/-- Helper: the first reading of the parse result is the version selection
over the effective match list. -/
theorem parse_first_eq (html : String) :
    (parse_katolska_readings html).first_reading
      = sectionReading (hasLectionaryVersions (readingsBody html))
          (activeFirstMatches (readingsBody html)) := by
  unfold parse_katolska_readings parseSections activeFirstMatches
  by_cases h : (firstMatches (readingsBody html)).isEmpty
  · simp [h]
  · simp [h]

/-- Helper: the suffix table of the ordinal helper as an if-chain on the last
digit. -/
theorem ordinal_suffix_table (k : Nat) :
    (match k with
     | 1 => "st"
     | 2 => "nd"
     | 3 => "rd"
     | _ => "th")
      = (if k = 1 then "st" else if k = 2 then "nd" else if k = 3 then "rd" else "th") := by
  match k with
  | 0 => rfl
  | 1 => rfl
  | 2 => rfl
  | 3 => rfl
  | n + 4 =>
    rw [if_neg (by omega), if_neg (by omega), if_neg (by omega)]
    rfl

/-- Claim C9: the ordinal helper maps 1, 2, 3, 11, 12, 13, 21 and 31 to 1st,
2nd, 3rd, 11th, 12th, 13th, 21st and 31st; in general 11 to 13 take the
suffix th unconditionally, and every other number takes st, nd, rd or th
according to its last digit. -/
theorem C9_ordinal_spec :
    (ordinal 1 = "1st" ∧ ordinal 2 = "2nd" ∧ ordinal 3 = "3rd" ∧ ordinal 11 = "11th" ∧
      ordinal 12 = "12th" ∧ ordinal 13 = "13th" ∧ ordinal 21 = "21st" ∧ ordinal 31 = "31st") ∧
    ∀ n : Nat,
      (11 ≤ n ∧ n ≤ 13 → ordinal n = toString n ++ "th") ∧
      (¬(11 ≤ n ∧ n ≤ 13) →
        ordinal n = toString n ++
          (if n % 10 = 1 then "st" else if n % 10 = 2 then "nd"
           else if n % 10 = 3 then "rd" else "th")) := by
  constructor
  · exact ⟨rfl, rfl, rfl, rfl, rfl, rfl, rfl, rfl⟩
  · intro n
    constructor
    · intro h
      unfold ordinal
      rw [if_pos h]
    · intro h
      unfold ordinal
      rw [if_neg h, ordinal_suffix_table]

/-- Witness for C9 at concrete inputs, discharging both hypothesis shapes. -/
theorem C9_ordinal_spec_witness : ordinal 111 = "111st" ∧ ordinal 12 = "12th" := by
  constructor
  · rw [(C9_ordinal_spec.2 111).2 (by decide)]
    decide
  · rw [(C9_ordinal_spec.2 12).1 (by decide)]
    decide

/-- Claim C2 counterexample: the normaliser is not idempotent — decoding the
entity-encoded paragraph tag produces a tag that a second pass strips. -/
theorem C2_clean_html_not_idempotent :
    clean_html "&lt;p&gt;" = "<p>" ∧
    clean_html (clean_html "&lt;p&gt;") = "" ∧
    clean_html (clean_html "&lt;p&gt;") ≠ clean_html "&lt;p&gt;" := by
  exact ⟨by decide, by decide, by decide⟩

/-- Claim C2 amended: clean_html is not idempotent in general, because entity
decoding can expose new markup to a second pass; re-normalising is a no-op
exactly on the fixed points of the normaliser. -/
theorem C2_clean_html_idempotent_on_fixed (x : String) (h : clean_html x = x) :
    clean_html (clean_html x) = clean_html x := by rw [h, h]

/-- Witness for the amended C2 at a concrete fixed point. -/
theorem C2_witness :
    clean_html "abc" = "abc" ∧ clean_html (clean_html "abc") = clean_html "abc" :=
  ⟨by decide, C2_clean_html_idempotent_on_fixed "abc" (by decide)⟩

/-- Claim C4 counterexample: the boilerplate sentence is removed even when it
occurs in the middle of the content, where the claim (strip only at the
start) would keep the content unchanged. -/
theorem C4_boilerplate_not_only_at_start :
    parse_martyrology_for_day C4doc 13 "february" = "Saint A. is good." ∧
    martyrologySpecClaim C4doc 13 "february"
      = "Saint A. This Day, the 13th Day of February is good." ∧
    parse_martyrology_for_day C4doc 13 "february" ≠ martyrologySpecClaim C4doc 13 "february" := by
  exact ⟨by decide, by decide, by decide⟩

/-- Claim C4 amended: the extractor returns the clean_html-normalised content
between the day heading and the next h2 heading, horizontal rule or document
end, with EVERY occurrence of the boilerplate sentence removed (by re.sub,
not only a leading one) and the result stripped, and it returns the empty
string rather than an error when no heading matches. -/
theorem C4_martyrology_extraction (html : String) (day : Nat) (month_name : String) :
    (pySearchSplit (martHeadAt (capitalizeS month_name).data (ordinal day).data) html.data = none →
      parse_martyrology_for_day html day month_name = "") ∧
    (∀ pre content,
      pySearchSplit (martHeadAt (capitalizeS month_name).data (ordinal day).data) html.data
          = some (pre, content) →
      parse_martyrology_for_day html day month_name
        = ⟨stripWS (pySub (boilerRep (capitalizeS month_name).data) (cleanHtmlL content))⟩) := by
  constructor
  · intro h
    simp only [parse_martyrology_for_day, h]
  · intro pre content h
    simp only [parse_martyrology_for_day, h]

/-- Witness for the amended C4, discharging both hypothesis shapes at
concrete inputs. -/
theorem C4_witness :
    parse_martyrology_for_day "<p>no heading</p>" 13 "february" = "" ∧
    parse_martyrology_for_day C4docPlain 13 "february" = "Saints." := by
  constructor
  · exact (C4_martyrology_extraction "<p>no heading</p>" 13 "february").1 (by decide)
  · have h := (C4_martyrology_extraction C4docPlain 13 "february").2
      "".data "<p>Saints.</p>".data (by decide)
    rw [h]
    decide

/-- Claim C5: the parse result always carries all five sections with string
fields (the record type of the embedding makes an absent or null field
unrepresentable, and the empty document yields the all-empty record), and a
document on which the second-reading pattern finds no match — in particular
one with no second-reading header — yields the empty second reading rather
than an error. -/
theorem C5_reading_defaults (html : String) :
    parse_katolska_readings "" =
      { first_reading := { reference := "", text := "" },
        responsorial_psalm := { reference := "", text := "", response := "" },
        second_reading := { reference := "", text := "" },
        gospel := { reference := "", text := "" },
        title := "" } ∧
    (secondMatches (readingsBody html) = [] →
      (parse_katolska_readings html).second_reading = { reference := "", text := "" }) := by
  constructor
  · rfl
  · intro h
    have e : (parse_katolska_readings html).second_reading
        = sectionReading (hasLectionaryVersions (readingsBody html))
            (secondMatches (readingsBody html)) := rfl
    rw [e, h]
    rfl

/-- Witness for C5 on a weekday fixture with no second-reading header. -/
theorem C5_witness :
    (parse_katolska_readings C5doc).second_reading = { reference := "", text := "" } :=
  (C5_reading_defaults C5doc).2 (by decide)

/-- Helper: the psalm of the parse result is the version selection over the
psalm header match list. -/
theorem parse_psalm_eq (html : String) :
    (parse_katolska_readings html).responsorial_psalm
      = psalmSection (hasLectionaryVersions (readingsBody html))
          (psalmMatches (readingsBody html)) := rfl

/-- Helper: the second reading of the parse result is the version selection
over the second-reading match list. -/
theorem parse_second_eq (html : String) :
    (parse_katolska_readings html).second_reading
      = sectionReading (hasLectionaryVersions (readingsBody html))
          (secondMatches (readingsBody html)) := rfl

/-- Helper: the gospel of the parse result is the version selection over the
gospel match list. -/
theorem parse_gospel_eq (html : String) :
    (parse_katolska_readings html).gospel
      = sectionReading (hasLectionaryVersions (readingsBody html))
          (gospelMatches (readingsBody html)) := rfl

/-- Helper: a section resolves to the last match under the marker with
multiple matches. -/
theorem sectionReading_last (m : List Char × List Char) (ms : List (List Char × List Char))
    (g : List Char × List Char) (hne : ms ≠ []) (hg : (m :: ms).getLast? = some g) :
    sectionReading true (m :: ms) = mkReading g := by
  show mkReading (pick true m ms) = mkReading g
  rw [pick_last m ms hne, getLastD_of_getLastQ ms m g hg]

/-- Helper: a section resolves to the first match without the marker or with a
unique match. -/
theorem sectionReading_first (hv : Bool) (m : List Char × List Char)
    (ms : List (List Char × List Char)) (h : hv = false ∨ ms = []) :
    sectionReading hv (m :: ms) = mkReading m := by
  show mkReading (pick hv m ms) = mkReading m
  rw [pick_first hv m ms h]

/-- Helper: the psalm resolves to the last header match under the marker with
multiple matches. -/
theorem psalmSection_last (m : List Char × List Char) (ms : List (List Char × List Char))
    (g : List Char × List Char) (hne : ms ≠ []) (hg : (m :: ms).getLast? = some g) :
    psalmSection true (m :: ms) = psalmFromSel g := by
  show psalmFromSel (pick true m ms) = psalmFromSel g
  rw [pick_last m ms hne, getLastD_of_getLastQ ms m g hg]

/-- Helper: the psalm resolves to the first header match without the marker or
with a unique match. -/
theorem psalmSection_first (hv : Bool) (m : List Char × List Char)
    (ms : List (List Char × List Char)) (h : hv = false ∨ ms = []) :
    psalmSection hv (m :: ms) = psalmFromSel m := by
  show psalmFromSel (pick hv m ms) = psalmFromSel m
  rw [pick_first hv m ms h]

/-- Claim C3: when the Sunday first-reading pattern matches anywhere in the
parsed content, the first reading is computed from those matches alone — the
right-hand side mentions only the Sunday match list, so the weekday pattern is
not consulted — and the weekday reading pattern is used exactly when the
Sunday pattern found nothing. -/
theorem C3_first_reading_priority (html : String) :
    (firstMatches (readingsBody html) ≠ [] →
      (parse_katolska_readings html).first_reading
        = sectionReading (hasLectionaryVersions (readingsBody html))
            (firstMatches (readingsBody html))) ∧
    (firstMatches (readingsBody html) = [] →
      (parse_katolska_readings html).first_reading
        = sectionReading (hasLectionaryVersions (readingsBody html))
            (readingMatches (readingsBody html))) := by
  constructor
  · intro h
    rw [parse_first_eq html]
    unfold activeFirstMatches
    rw [if_neg (by simpa using h)]
  · intro h
    rw [parse_first_eq html]
    unfold activeFirstMatches
    rw [h]
    simp

/-- Witness for C3 on a page with both header forms: the Sunday form wins. -/
theorem C3_witness :
    (parse_katolska_readings C3doc).first_reading
      = sectionReading (hasLectionaryVersions (readingsBody C3doc))
          (firstMatches (readingsBody C3doc)) ∧
    (parse_katolska_readings C3doc).first_reading.reference = "A 1" :=
  ⟨(C3_first_reading_priority C3doc).1 (by decide), by decide⟩

set_option maxRecDepth 16384 in
/-- Claim C1 counterexample: the marker check of sensor.py line 186 runs on
the content already narrowed to the first main element, so a document that
contains the marker substring outside main, with a section pattern matching
more than once, still selects the FIRST match — against the claim as stated
over the whole document. -/
theorem C1_marker_scope_counterexample :
    containsSub "Ur Lektionarium".data C1cxDoc.data = true ∧
    (pyFindAll (secAt [[HTok.lit "Evangelium"]] gspStop) C1cxDoc.data).length = 2 ∧
    (gospelMatches (readingsBody C1cxDoc)).length = 2 ∧
    (gospelMatches (readingsBody C1cxDoc)).getLast? = some ("G2".data, "<p>b</p>".data) ∧
    (parse_katolska_readings C1cxDoc).gospel = { reference := "G1", text := "a" } ∧
    (parse_katolska_readings C1cxDoc).gospel ≠ mkReading ("G2".data, "<p>b</p>".data) :=
  ⟨by decide, by decide, by decide, by decide, by decide, by decide⟩

/-- Claim C1 amended: per section kind, over the content the source actually searches
(the first main element when present, otherwise the whole document — the
marker test of sensor.py line 186 runs after that narrowing): when that
content contains the lectionary marker substring and the section pattern
matched more than once, the reference and text come from the LAST match;
whenever at least one match exists otherwise (no marker, or a unique match),
they come from the FIRST.  The selection is independent per section; the
first reading selects over its effective (Sunday-priority) match list, and
the psalm fields derive from the selected header match. -/
theorem C1_version_selection (html : String) :
    (∀ m ms g, activeFirstMatches (readingsBody html) = m :: ms → ms ≠ [] →
        (m :: ms).getLast? = some g → hasLectionaryVersions (readingsBody html) = true →
        (parse_katolska_readings html).first_reading = mkReading g) ∧
    (∀ m ms, activeFirstMatches (readingsBody html) = m :: ms →
        (hasLectionaryVersions (readingsBody html) = false ∨ ms = []) →
        (parse_katolska_readings html).first_reading = mkReading m) ∧
    (∀ m ms g, psalmMatches (readingsBody html) = m :: ms → ms ≠ [] →
        (m :: ms).getLast? = some g → hasLectionaryVersions (readingsBody html) = true →
        (parse_katolska_readings html).responsorial_psalm = psalmFromSel g) ∧
    (∀ m ms, psalmMatches (readingsBody html) = m :: ms →
        (hasLectionaryVersions (readingsBody html) = false ∨ ms = []) →
        (parse_katolska_readings html).responsorial_psalm = psalmFromSel m) ∧
    (∀ m ms g, secondMatches (readingsBody html) = m :: ms → ms ≠ [] →
        (m :: ms).getLast? = some g → hasLectionaryVersions (readingsBody html) = true →
        (parse_katolska_readings html).second_reading = mkReading g) ∧
    (∀ m ms, secondMatches (readingsBody html) = m :: ms →
        (hasLectionaryVersions (readingsBody html) = false ∨ ms = []) →
        (parse_katolska_readings html).second_reading = mkReading m) ∧
    (∀ m ms g, gospelMatches (readingsBody html) = m :: ms → ms ≠ [] →
        (m :: ms).getLast? = some g → hasLectionaryVersions (readingsBody html) = true →
        (parse_katolska_readings html).gospel = mkReading g) ∧
    (∀ m ms, gospelMatches (readingsBody html) = m :: ms →
        (hasLectionaryVersions (readingsBody html) = false ∨ ms = []) →
        (parse_katolska_readings html).gospel = mkReading m) := by
  refine ⟨?_, ?_, ?_, ?_, ?_, ?_, ?_, ?_⟩
  · intro m ms g hm hne hg hv
    rw [parse_first_eq html, hm, hv]
    exact sectionReading_last m ms g hne hg
  · intro m ms hm hd
    rw [parse_first_eq html, hm]
    exact sectionReading_first _ m ms hd
  · intro m ms g hm hne hg hv
    rw [parse_psalm_eq html, hm, hv]
    exact psalmSection_last m ms g hne hg
  · intro m ms hm hd
    rw [parse_psalm_eq html, hm]
    exact psalmSection_first _ m ms hd
  · intro m ms g hm hne hg hv
    rw [parse_second_eq html, hm, hv]
    exact sectionReading_last m ms g hne hg
  · intro m ms hm hd
    rw [parse_second_eq html, hm]
    exact sectionReading_first _ m ms hd
  · intro m ms g hm hne hg hv
    rw [parse_gospel_eq html, hm, hv]
    exact sectionReading_last m ms g hne hg
  · intro m ms hm hd
    rw [parse_gospel_eq html, hm]
    exact sectionReading_first _ m ms hd

set_option maxRecDepth 16384 in
/-- Witness for C1: on the dual-edition fixture every section resolves to its
2022 values through the last-match branch, and on the single-edition fixture
the gospel resolves to its only match through the first-match branch. -/
theorem C1_witness :
    (parse_katolska_readings C1doc).first_reading = { reference := "L2", text := "lb" } ∧
    (parse_katolska_readings C1doc).responsorial_psalm
      = { reference := "P2", text := "R. r2\n\nAndra läsningen A2\n\nab", response := "r2" } ∧
    (parse_katolska_readings C1doc).second_reading = { reference := "A2", text := "ab" } ∧
    (parse_katolska_readings C1doc).gospel = { reference := "E2", text := "eb" } ∧
    (parse_katolska_readings C1docSingle).gospel = { reference := "E", text := "t" } := by
  have c := C1_version_selection C1doc
  have cs := C1_version_selection C1docSingle
  refine ⟨?_, ?_, ?_, ?_, ?_⟩
  · have hlen : (activeFirstMatches (readingsBody C1doc)).length = 2 := by decide
    rcases hm : activeFirstMatches (readingsBody C1doc) with _ | ⟨m, ms⟩
    · rw [hm] at hlen
      simp at hlen
    · rw [hm] at hlen
      have hne : ms ≠ [] := by
        intro e
        rw [e] at hlen
        simp at hlen
      have hg : (m :: ms).getLast? = some ("L2".data, "<p>lb</p>".data) := by
        rw [← hm]
        decide
      rw [c.1 m ms _ hm hne hg (by decide)]
      decide
  · have hlen : (psalmMatches (readingsBody C1doc)).length = 2 := by decide
    rcases hm : psalmMatches (readingsBody C1doc) with _ | ⟨m, ms⟩
    · rw [hm] at hlen
      simp at hlen
    · rw [hm] at hlen
      have hne : ms ≠ [] := by
        intro e
        rw [e] at hlen
        simp at hlen
      have hg : (m :: ms).getLast?
          = some ("P2".data,
              "<p>R. r2</p><p><strong>Andra läsningen</strong> A2</p><p>ab</p><p><strong>Evangelium</strong> E2</p><p>eb</p>".data) := by
        rw [← hm]
        decide
      rw [c.2.2.1 m ms _ hm hne hg (by decide)]
      decide
  · have hlen : (secondMatches (readingsBody C1doc)).length = 2 := by decide
    rcases hm : secondMatches (readingsBody C1doc) with _ | ⟨m, ms⟩
    · rw [hm] at hlen
      simp at hlen
    · rw [hm] at hlen
      have hne : ms ≠ [] := by
        intro e
        rw [e] at hlen
        simp at hlen
      have hg : (m :: ms).getLast? = some ("A2".data, "<p>ab</p>".data) := by
        rw [← hm]
        decide
      rw [c.2.2.2.2.1 m ms _ hm hne hg (by decide)]
      decide
  · have hlen : (gospelMatches (readingsBody C1doc)).length = 2 := by decide
    rcases hm : gospelMatches (readingsBody C1doc) with _ | ⟨m, ms⟩
    · rw [hm] at hlen
      simp at hlen
    · rw [hm] at hlen
      have hne : ms ≠ [] := by
        intro e
        rw [e] at hlen
        simp at hlen
      have hg : (m :: ms).getLast? = some ("E2".data, "<p>eb</p>".data) := by
        rw [← hm]
        decide
      rw [c.2.2.2.2.2.2.1 m ms _ hm hne hg (by decide)]
      decide
  · have h := cs.2.2.2.2.2.2.2 ("E".data, "<p>t</p>".data) [] (by decide) (Or.inl (by decide))
    rw [h]
    decide

/-- Claim C10: the title comes from the first h1 of the whole document before
any narrowing, and when a main element exists every section is computed from
the lazy content group of the first main element alone — so a header outside
main is never selected for a reading. -/
theorem C10_main_narrowing (html : String) :
    (parse_katolska_readings html).title = titleOf html ∧
    (∀ pre g, pySearchSplit (lazyTagContentAt "<main" "</main>") html.data = some (pre, g) →
      parse_katolska_readings html = parseSections (titleOf html) g) := by
  constructor
  · rfl
  · intro pre g h
    unfold parse_katolska_readings readingsBody
    rw [h]

/-- Witness for C10: the gospel header outside main is ignored while the
title is still read from the whole document. -/
theorem C10_witness :
    parse_katolska_readings C10doc = parseSections (titleOf C10doc) "<p>inget</p>".data ∧
    containsSub "<strong>Evangelium</strong>".data C10doc.data = true ∧
    (parse_katolska_readings C10doc).gospel = { reference := "", text := "" } ∧
    (parse_katolska_readings C10doc).title = "Rubrik" := by
  refine ⟨?_, by decide, by decide, by decide⟩
  exact (C10_main_narrowing C10doc).2 "<h1>Rubrik</h1>".data "<p>inget</p>".data (by decide)

/-- Claim C6: the canonical URL is exactly the base plus ISO week and
weekday-den-day-month slug (stated as a formula over the embedded date
functions and checked on Friday 13 February 2026, ISO week 7), and the
resolver prefers the day link discovered on the week navigation page, using
the canonical slug only as the fallback when none is found. -/
theorem C6_url_resolution :
    (∀ d : Date,
      build_katolska_url d
        = KATOLSKA_BASE_URL ++ "/vecka-" ++ toString (isoWeekNumber d) ++ "/" ++
            SWEDISH_WEEKDAYS.getD (pyWeekday d) "" ++ "-den-" ++ toString d.day ++ "-" ++
            SWEDISH_MONTHS.getD (d.month - 1) "") ∧
    build_katolska_url ⟨2026, 2, 13⟩
      = "https://www.katolskakyrkan.se/forsamlingsliv/ordo-och-veckans-lasningar/vecka-7/fredag-den-13-februari" ∧
    (∀ (nav : String) (d : Date) (u : String),
      find_day_url_in_week_html nav d = some u →
      resolve_readings_url (find_day_url_in_week_html nav d) d = u) ∧
    (∀ (nav : String) (d : Date),
      find_day_url_in_week_html nav d = none →
      resolve_readings_url (find_day_url_in_week_html nav d) d = build_katolska_url d) := by
  refine ⟨fun d => rfl, by decide, ?_, ?_⟩
  · intro nav d u h
    rw [h]
    rfl
  · intro nav d h
    rw [h]
    rfl

/-- Witness for C6: the misspelled discovered link is preferred, and the
canonical slug is used when the navigation page has no matching link. -/
theorem C6_witness :
    resolve_readings_url (find_day_url_in_week_html C6navDoc ⟨2026, 2, 13⟩) ⟨2026, 2, 13⟩
      = "https://www.katolskakyrkan.se/forsamlingsliv/ordo-och-veckans-lasningar/vecka-7/fredag-den-13-feburari" ∧
    resolve_readings_url (find_day_url_in_week_html "no links" ⟨2026, 2, 13⟩) ⟨2026, 2, 13⟩
      = build_katolska_url ⟨2026, 2, 13⟩ := by
  constructor
  · exact C6_url_resolution.2.2.1 C6navDoc ⟨2026, 2, 13⟩ _ (by decide)
  · exact C6_url_resolution.2.2.2 "no links" ⟨2026, 2, 13⟩ (by decide)

/-- Claim C7: when a refresh attempt fails — a non-200 status, a timeout or
any other exception — the cached data and last_update of the readings and
martyrology coordinators are left unchanged and only the error string is set;
the refresh transitions are total functions of the fetch outcome, so no
exception crosses the refresh boundary. -/
theorem C7_failure_preserves_cache :
    (∀ (s : RState) (today : Date) (nav : Option String) (o : FetchOutcome),
      o.failed = true → ¬(s.data.isSome ∧ s.last_update = some today) →
      (readingsRefresh s today nav o).1.data = s.data ∧
      (readingsRefresh s today nav o).1.last_update = s.last_update ∧
      ((readingsRefresh s today nav o).1.error).isSome = true) ∧
    (∀ (s : MState) (today : Date) (o : FetchOutcome),
      o.failed = true → ¬(s.text ≠ "" ∧ s.last_update = some today) →
      (martyrologyRefresh s today o).1.text = s.text ∧
      (martyrologyRefresh s today o).1.data = s.data ∧
      (martyrologyRefresh s today o).1.last_update = s.last_update ∧
      ((martyrologyRefresh s today o).1.error).isSome = true) := by
  constructor
  · intro s today nav o hf hc
    cases o with
    | ok st body =>
      have hst : ¬ st = 200 := by
        simpa [FetchOutcome.failed] using hf
      by_cases h404 : st = 404
      · simp [readingsRefresh, if_neg hc, if_neg hst, if_pos h404]
      · simp [readingsRefresh, if_neg hc, if_neg hst, if_neg h404]
    | timeout =>
      unfold readingsRefresh
      rw [if_neg hc]
      exact ⟨rfl, rfl, rfl⟩
    | exc m =>
      unfold readingsRefresh
      rw [if_neg hc]
      exact ⟨rfl, rfl, rfl⟩
  · intro s today o hf hc
    cases o with
    | ok st body =>
      have hst : ¬ st = 200 := by
        simpa [FetchOutcome.failed] using hf
      simp [martyrologyRefresh, if_neg hc, if_neg hst]
    | timeout =>
      unfold martyrologyRefresh
      rw [if_neg hc]
      exact ⟨rfl, rfl, rfl, rfl⟩
    | exc m =>
      unfold martyrologyRefresh
      rw [if_neg hc]
      exact ⟨rfl, rfl, rfl, rfl⟩

/-- Witness for C7 at concrete failing refreshes of both coordinators. -/
theorem C7_witness :
    (readingsRefresh ⟨none, none, none, none⟩ ⟨2026, 2, 13⟩ none FetchOutcome.timeout).1.data
      = none ∧
    ((martyrologyRefresh ⟨none, none, "", none⟩ ⟨2026, 2, 13⟩
        (FetchOutcome.ok 500 "")).1.error).isSome = true := by
  constructor
  · exact (C7_failure_preserves_cache.1 ⟨none, none, none, none⟩ ⟨2026, 2, 13⟩ none
      FetchOutcome.timeout (by decide) (by decide)).1
  · exact (C7_failure_preserves_cache.2 ⟨none, none, "", none⟩ ⟨2026, 2, 13⟩
      (FetchOutcome.ok 500 "") (by decide) (by decide)).2.2.2

/-- Claim C8 counterexample: a martyrology refresh that completed for the day
(HTTP 200, last_update recorded for that date) but parsed an empty text is
not memoized — a further refresh on the same date runs again and alters the
state by recording the error of the new attempt. -/
theorem C8_completed_refresh_not_memoized :
    ((martyrologyRefresh ⟨none, none, "", none⟩ ⟨2026, 2, 13⟩
        (FetchOutcome.ok 200 "<p>x</p>")).1.last_update = some ⟨2026, 2, 13⟩) ∧
    martyrologyRefresh
        (martyrologyRefresh ⟨none, none, "", none⟩ ⟨2026, 2, 13⟩
          (FetchOutcome.ok 200 "<p>x</p>")).1
        ⟨2026, 2, 13⟩ (FetchOutcome.ok 500 "")
      ≠ ((martyrologyRefresh ⟨none, none, "", none⟩ ⟨2026, 2, 13⟩
          (FetchOutcome.ok 200 "<p>x</p>")).1, false) :=
  ⟨by decide, by decide⟩

/-- Claim C8 amended: once a refresh has stored data for a date, every further
refresh on that same date is a no-op — no fetch is reached and the state is
returned unchanged — for all three coordinators; for the martyrology
coordinator this holds exactly when the stored text is non-empty, since a
completed refresh with an empty parsed text (and any failed refresh) is not
memoized and is retried on the same date. -/
theorem C8_same_day_noop (d : Date) :
    (∀ (s : RState) (nav : Option String) (o : FetchOutcome),
      s.data.isSome = true → s.last_update = some d → readingsRefresh s d nav o = (s, false)) ∧
    (∀ (s : MState) (o : FetchOutcome),
      s.text ≠ "" → s.last_update = some d → martyrologyRefresh s d o = (s, false)) ∧
    (∀ (s : LState) (o : FetchOutcome),
      s.data.isSome = true → s.last_update = some d → liturgyRefresh s d o = (s, false)) := by
  refine ⟨?_, ?_, ?_⟩
  · intro s nav o h1 h2
    unfold readingsRefresh
    rw [if_pos ⟨h1, h2⟩]
  · intro s o h1 h2
    unfold martyrologyRefresh
    rw [if_pos ⟨h1, h2⟩]
  · intro s o h1 h2
    unfold liturgyRefresh
    rw [if_pos ⟨h1, h2⟩]

/-- Witness for the amended C8 on concrete memoized states of all three
coordinators. -/
theorem C8_witness :
    (readingsRefresh ⟨some ⟨parse_katolska_readings "", "u", "d"⟩, some ⟨2026, 2, 13⟩, none, none⟩
        ⟨2026, 2, 13⟩ none FetchOutcome.timeout).2 = false ∧
    (martyrologyRefresh ⟨none, some ⟨2026, 2, 13⟩, "t", none⟩ ⟨2026, 2, 13⟩
        FetchOutcome.timeout).2 = false ∧
    (liturgyRefresh ⟨some "j", some ⟨2026, 2, 13⟩⟩ ⟨2026, 2, 13⟩ FetchOutcome.timeout).2
      = false := by
  refine ⟨?_, ?_, ?_⟩
  · exact congrArg Prod.snd
      ((C8_same_day_noop ⟨2026, 2, 13⟩).1
        ⟨some ⟨parse_katolska_readings "", "u", "d"⟩, some ⟨2026, 2, 13⟩, none, none⟩
        none FetchOutcome.timeout rfl rfl)
  · exact congrArg Prod.snd
      ((C8_same_day_noop ⟨2026, 2, 13⟩).2.1 ⟨none, some ⟨2026, 2, 13⟩, "t", none⟩
        FetchOutcome.timeout (by decide) rfl)
  · exact congrArg Prod.snd
      ((C8_same_day_noop ⟨2026, 2, 13⟩).2.2 ⟨some "j", some ⟨2026, 2, 13⟩⟩
        FetchOutcome.timeout rfl rfl)

end CatholicSE
